import Mathlib

/-!
Verification development for the multiattack classifier and DPR calculator
of the legendlore repository (src/calc.py and src/actions.py).

The embedding models:
* dice-expression averages over the documented damage grammar (terms NdM or K
  joined by plus signs), mirroring the regex substitution NdM to
  (float(N)*M + N)/2 followed by arithmetic evaluation (calc.avg);
* the hit-probability function calc.attackodds and calc.dpr;
* the attack catalog (Actions.attacks), Multiattack text lookup and the
  approximate name resolution AttackForm._match_attack;
* every pattern of the cascade, transliterated item by item from its regex
  into a template, matched with a backtracking matcher that follows the
  preference order of the Python regex engine (greedy, ordered alternation),
  so classification, capture groups and group order agree with re.fullmatch;
* the catch-all Default pattern (dot-star followed by star of newline
  dot-star) through a Brzozowski-derivative regex engine;
* the generic validator AttackForm._validate and the per-shape damage
  formulas.  Python exceptions (KeyError, TypeError, AttributeError,
  ValueError from max of an empty sequence, and failures of the damage
  evaluator) surface as values of the Err type.

Per-shape damage formulas are represented as damage expressions of type
DExpr built once per creature from the validated captures (the construction
does not depend on the target armor class), then evaluated at the target
armor class; this matches the source because the per-shape computations
combine attack terms with sums, maxima, nonnegative counts and constants.
-/

/-- Lowercase a string character by character, as Python str.lower does on ASCII text. -/
def pyLower (s : String) : String := s.map Char.toLower

/-- Remove every trailing letter s, as the Python rstrip call with that single character. -/
def rstripS (s : String) : String :=
  String.mk ((s.toList.reverse.dropWhile (fun c => c == 's')).reverse)

/-- Contiguous sublist test, mirroring the Python substring operator. -/
def subListOf (a : List Char) : List Char → Bool
  | [] => a.isEmpty
  | c :: rest => a.isPrefixOf (c :: rest) || subListOf a rest

/-- Python substring membership, the binary in operator on strings. -/
def strIn (a b : String) : Bool := subListOf a.toList b.toList

def takeStr (s : String) (n : ℕ) : String := String.mk (s.toList.take n)

def dropStr (s : String) (n : ℕ) : String := String.mk (s.toList.drop n)

/-- Numeric value of a digit string, as int() on a digits-only string. -/
def digitsVal (l : List Char) : ℕ := l.foldl (fun a c => a * 10 + (c.toNat - 48)) 0

/-- Split a character list at every occurrence of the separator character. -/
def splitOnCharAux (c : Char) : List Char → List Char → List (List Char)
  | [], acc => [acc.reverse]
  | x :: rest, acc =>
    if x == c then acc.reverse :: splitOnCharAux c rest []
    else splitOnCharAux c rest (x :: acc)

def splitOnChar (c : Char) (l : List Char) : List (List Char) := splitOnCharAux c l []

def nlChar : Char := Char.ofNat 10

/-- The whitespace characters of Python str.strip and of the regex class backslash-s. -/
def isSpaceChar (c : Char) : Bool :=
  c == ' ' || c == Char.ofNat 9 || c == nlChar || c == Char.ofNat 13 ||
  c == Char.ofNat 11 || c == Char.ofNat 12

/-- Trim leading and trailing whitespace from a character list. -/
def trimL (l : List Char) : List Char :=
  ((l.dropWhile isSpaceChar).reverse.dropWhile isSpaceChar).reverse

/-- One term of a damage expression: a dice term NdM or a flat modifier K. -/
inductive DTerm where
  | dice (n m : ℕ)
  | flat (k : ℕ)
deriving DecidableEq, Repr

/-- Value of one term after the source substitution of NdM by (float(N)*M + N)/2. -/
def avgTerm : DTerm → ℚ
  | .dice n m => ((n : ℚ) * m + n) / 2
  | .flat k => (k : ℚ)

/-- Sum of the substituted terms, the arithmetic the evaluator performs. -/
def avgTerms (l : List DTerm) : ℚ := (l.map avgTerm).sum

def isDigitsL (l : List Char) : Bool := !l.isEmpty && l.all Char.isDigit

def parseTerm (l : List Char) : Option DTerm :=
  let t := trimL l
  if isDigitsL t then some (.flat (digitsVal t))
  else
    match splitOnChar 'd' t with
    | [a, b] => if isDigitsL a && isDigitsL b then some (.dice (digitsVal a) (digitsVal b)) else none
    | _ => none

def parseDmg (s : String) : Option (List DTerm) := (splitOnChar '+' s.toList).mapM parseTerm

/-- calc.avg restricted to the documented damage grammar; none models an
evaluation failure on a string outside the grammar. -/
def avg (s : String) : Option ℚ := (parseDmg s).map avgTerms

/-- calc.attackodds. -/
def attackodds (t : ℚ) : ℚ := max (min (1 - (t - 1) / 20) 0.95) 0.05

/-- calc.dpr. -/
def calcDpr (ac : ℚ) (b : ℤ) (dmg : String) : Option ℚ :=
  (avg dmg).map (fun d => attackodds (ac - (b : ℚ)) * d)

/-- An entry of the attack catalog: action dict with attack_bonus and damage present. -/
structure Attack where
  attack_bonus : ℤ
  damage : String
  text : Option String
deriving DecidableEq, Repr

/-- A raw action record; every field is optional in the source data. -/
structure ActionEntry where
  attack_bonus : Option ℤ := none
  damage : Option String := none
  text : Option String := none
deriving DecidableEq, Repr

/-- The Actions mapping of one creature: an association list of named actions. -/
structure Actions where
  entries : List (String × ActionEntry)
deriving DecidableEq, Repr

/-- Actions.attacks: the subset of actions having both attack_bonus and damage. -/
def Actions.attacks (a : Actions) : List (String × Attack) :=
  a.entries.filterMap (fun p =>
    match p.2.attack_bonus, p.2.damage with
    | some b, some d => some (p.1, ⟨b, d, p.2.text⟩)
    | _, _ => none)

/-- Actions.multiattack_text: the text of the action named Multiattack, if any. -/
def multiattackText (a : Actions) : Option String :=
  (a.entries.find? (fun p => p.1 == "Multiattack")).bind (fun p => p.2.text)

/-- One iteration of the loop in AttackForm._match_attack for one catalog item. -/
def resolveStep (an : String) (p : String × Attack) : Option Attack :=
  if strIn (rstripS (pyLower an)) (pyLower p.1) then some p.2
  else if pyLower an == "hooves" && pyLower p.1 == "hoof" then some p.2
  else if pyLower an == "adamantine greatclub" && pyLower p.1 == "greatclub" then some p.2
  else if takeStr an 3 == "+1 " && pyLower p.1 == pyLower (dropStr an 3) ++ " +1" then some p.2
  else none

/-- AttackForm._match_attack: first catalog entry accepted by resolveStep. -/
def matchAttack (catalog : List (String × Attack)) (an : String) : Option Attack :=
  catalog.findSome? (resolveStep an)

/-! ### A small regex engine for the catch-all Default pattern -/

inductive Rx where
  | emp
  | eps
  | cls (p : Char → Bool)
  | cat (a b : Rx)
  | alt (a b : Rx)
  | star (a : Rx)

def Rx.nullable : Rx → Bool
  | .emp => false
  | .eps => true
  | .cls _ => false
  | .cat a b => a.nullable && b.nullable
  | .alt a b => a.nullable || b.nullable
  | .star _ => true

/-- Smart concatenation, simplifying the empty and the epsilon regex. -/
def catS : Rx → Rx → Rx
  | .emp, _ => .emp
  | .eps, b => b
  | _, .emp => .emp
  | a, .eps => a
  | a, b => .cat a b

/-- Smart alternation, simplifying the empty regex. -/
def altS : Rx → Rx → Rx
  | .emp, b => b
  | a, .emp => a
  | a, b => .alt a b

def Rx.deriv : Rx → Char → Rx
  | .emp, _ => .emp
  | .eps, _ => .emp
  | .cls p, c => if p c then .eps else .emp
  | .cat a b, c => if a.nullable then altS (catS (a.deriv c) b) (b.deriv c) else catS (a.deriv c) b
  | .alt a b, c => altS (a.deriv c) (b.deriv c)
  | .star a, c => catS (a.deriv c) (.star a)

/-- Full match by iterated derivatives, the semantics of re.fullmatch. -/
def Rx.fmatch : Rx → List Char → Bool
  | r, [] => r.nullable
  | r, c :: s => Rx.fmatch (r.deriv c) s

def notNL (c : Char) : Bool := !(c == nlChar)

def isNL (c : Char) : Bool := c == nlChar

/-- Dot-star: a run of characters other than the newline. -/
def rxLine : Rx := .star (.cls notNL)

/-- Default.re: dot-star followed by star of (newline then dot-star). -/
def defaultRx : Rx := .cat rxLine (.star (.cat (.cls isNL) rxLine))

/-! ### Templates: item-by-item transliterations of the cascade regexes -/

/-- Captured groups of a match in group-definition order; an unmatched optional
group carries none, as in the Python groupdict. -/
abbrev Caps := List (String × Option String)

def isWordChar (c : Char) : Bool := c.isAlphanum || c == '_'

def notCommaDot (c : Char) : Bool := !(c == ',') && !(c == '.')

/-- One item of a template.  lit is literal text; optLit an optional literal;
altLit an ordered alternation of literals; capLit and optCapLit capture a
literal; article is the optional article followed by an optional space; mname
the creature-name group; num a number-word group; typeWord one or two word
characters runs separated by one whitespace; typePhrase a run without comma
or period; wordsUpTo k a word plus at most k further whitespace-word pairs;
anyChar the unescaped dot; charClass2 a two-character class. -/
inductive TItem where
  | lit (s : String)
  | optLit (s : String)
  | altLit (ss : List String)
  | capLit (key s : String)
  | optCapLit (key s : String)
  | article
  | mname
  | num (key : String)
  | typeWord (key : String)
  | typePhrase (key : String)
  | wordsUpTo (k : ℕ)
  | anyChar
  | charClass2 (a b : Char)

/-- Candidate splits for a greedy nonempty character-class run, longest first. -/
def greedyRuns (p : Char → Bool) (s : List Char) : List (List Char × List Char) :=
  let r := s.takeWhile p
  (List.range r.length).map (fun i => (s.take (r.length - i), s.drop (r.length - i)))

def litOpt (w : String) (s : List Char) : List (List Char × List Char) :=
  if w.toList.isPrefixOf s then [(w.toList, s.drop w.toList.length)] else []

/-- Candidates for an optional single space, present first. -/
def spOpt (s : List Char) : List (List Char × List Char) :=
  match s with
  | c :: r => if c == ' ' then [([c], r), ([], c :: r)] else [([], c :: r)]
  | [] => [([], [])]

/-- Candidates for the article group, in the preference order of the regex engine. -/
def articleCands (s : List Char) : List (List Char × List Char) :=
  ((["a", "its", "his", "her"].map (fun w =>
      (litOpt w s).flatMap (fun pr => (spOpt pr.2).map (fun q => (pr.1 ++ q.1, q.2))))).flatten)
    ++ spOpt s

/-- Candidates for a type-word group: word, optionally whitespace and a word. -/
def typeWordCands (s : List Char) : List (List Char × List Char) :=
  (greedyRuns isWordChar s).flatMap (fun pr =>
    (match pr.2 with
     | c :: r2 =>
       if isSpaceChar c then
         (greedyRuns isWordChar r2).map (fun q => (pr.1 ++ c :: q.1, q.2))
       else []
     | [] => []) ++ [pr])

/-- Candidates for at most k repetitions of whitespace-then-word, more repetitions first. -/
def extWords : ℕ → List Char → List (List Char × List Char)
  | 0, s => [([], s)]
  | k + 1, s =>
    (match s with
     | c :: r =>
       if isSpaceChar c then
         (greedyRuns isWordChar r).flatMap (fun q =>
           (extWords k q.2).map (fun q2 => (c :: (q.1 ++ q2.1), q2.2)))
       else []
     | [] => []) ++ [([], s)]

def wordsCands (k : ℕ) (s : List Char) : List (List Char × List Char) :=
  (greedyRuns isWordChar s).flatMap (fun pr => (extWords k pr.2).map (fun q => (pr.1 ++ q.1, q.2)))

/-- The number-word alternation, in the order of the source dictionary. -/
def numWordList : List String := ["one", "once", "two", "twice", "three", "four", "five", "six"]

/-- Candidates of one template item on a remaining input, in backtracking order. -/
def TItem.opts : TItem → List Char → List (Caps × List Char)
  | .lit w, s => (litOpt w s).map (fun pr => (([] : Caps), pr.2))
  | .optLit w, s => ((litOpt w s).map (fun pr => (([] : Caps), pr.2))) ++ [([], s)]
  | .altLit ws, s => ws.flatMap (fun w => (litOpt w s).map (fun pr => (([] : Caps), pr.2)))
  | .capLit key w, s => (litOpt w s).map (fun pr => ([(key, some w)], pr.2))
  | .optCapLit key w, s =>
    ((litOpt w s).map (fun pr => ([(key, some w)], pr.2))) ++ [([(key, (none : Option String))], s)]
  | .article, s => (articleCands s).map (fun pr => (([] : Caps), pr.2))
  | .mname, s => (greedyRuns notCommaDot s).map (fun pr => ([("mname", some (String.mk pr.1))], pr.2))
  | .num key, s => numWordList.flatMap (fun w => (litOpt w s).map (fun pr => ([(key, some w)], pr.2)))
  | .typeWord key, s => (typeWordCands s).map (fun pr => ([(key, some (String.mk pr.1))], pr.2))
  | .typePhrase key, s => (greedyRuns notCommaDot s).map (fun pr => ([(key, some (String.mk pr.1))], pr.2))
  | .wordsUpTo k, s => (wordsCands k s).map (fun pr => (([] : Caps), pr.2))
  | .anyChar, s =>
    match s with
    | c :: r => if notNL c then [(([] : Caps), r)] else []
    | [] => []
  | .charClass2 a b, s =>
    match s with
    | c :: r => if c == a || c == b then [(([] : Caps), r)] else []
    | [] => []

/-- Backtracking matcher over a template; depth-first in candidate order, so
the first full match and its captures coincide with the leftmost-greedy
behaviour of the Python engine on these patterns.  The fuel argument only
drives structural recursion; mRun passes the template length, which is exact
because each step consumes one item. -/
def mRunF : ℕ → List TItem → List Char → Option Caps
  | _, [], s => if s.isEmpty then some [] else none
  | 0, _ :: _, _ => none
  | f + 1, it :: rest, s =>
    (it.opts s).findSome? (fun pr => (mRunF f rest pr.2).map (fun c => pr.1 ++ c))

def mRun (its : List TItem) (s : List Char) : Option Caps := mRunF its.length its s

def apos : Char := Char.ofNat 39

/-! Custom handler patterns: literal strings; an unescaped final dot becomes anyChar. -/

def tplCentaur : List TItem :=
  [.lit "The centaur makes two attacks: one with its pike and one with its hooves or two with its longbow."]
def tplLamia : List TItem :=
  [.lit "The lamia makes two attacks: one with its claws and one with its dagger or Intoxicating Touch."]
def tplManticore : List TItem :=
  [.lit "The manticore makes three attacks: one with its bite and two with its claws or three with its tail spikes", .anyChar]
def tplOrc : List TItem :=
  [.lit "The orc makes two attacks with its greataxe or its spear", .anyChar]
def tplDevil : List TItem :=
  [.lit "The devil makes two attacks: one with its bite and one with its fork or two with its tail spines."]
def tplMorkoth : List TItem :=
  [.lit "The morkoth makes three attacks: two with its bite and one with its tentacles or three with its bite", .anyChar]
def tplMarut : List TItem :=
  [.lit "The marut makes two slam attacks."]
def tplHunter : List TItem :=
  [.lit "The blood hunter attacks twice with a weapon."]
def tplSansuri : List TItem :=
  [.lit "Sansuri makes two spear attacks."]
def tplGenerator : List TItem :=
  [.lit "The generator makes two fist attacks or four dart attacks."]
def tplStomper : List TItem :=
  [.lit "Shockerstomper makes three Lightning Turret attacks and two Stomp attacks", .anyChar]

/-! Generic handler patterns. -/

def tplAny : List TItem :=
  [.mname, .lit " makes ", .num "total", .lit " ", .optLit "weapon ", .lit "attacks", .optLit "."]
def tplNumWithWeapon : List TItem :=
  [.mname, .lit " attacks ", .num "total", .lit " with a weapon", .optLit "."]
def tplAnyMelee : List TItem :=
  [.mname, .lit " makes ", .num "num1", .lit " melee ", .optLit "weapon ", .lit "attacks", .optLit "."]
def tplAnyRanged : List TItem :=
  [.mname, .lit " makes ", .num "num1", .lit " ranged attacks", .optLit "."]
def tplMeleeOrRanged : List TItem :=
  [.mname, .lit " makes ", .num "num1", .lit " melee attacks or ", .num "num2",
   .lit " ranged attacks", .optLit "."]
def tplNamed : List TItem :=
  [.mname, .lit " makes ", .num "num1", .lit " ", .typeWord "type1", .lit " attacks", .optLit "."]
def tplWithNamed : List TItem :=
  [.mname, .lit " makes ", .num "num1", .lit " ", .altLit ["melee ", "ranged ", ""],
   .lit "attacks with ", .article, .typeWord "type1", .lit "."]
def tplWithNamed2Options : List TItem :=
  [.mname, .lit " makes ", .num "total", .lit " attacks with ", .article, .typeWord "type1",
   .lit " or ", .article, .typeWord "type2", .lit "."]
def tplNamedAndUses : List TItem :=
  [.mname, .lit " makes ", .num "num1", .lit " attack", .optLit "s", .lit " with ", .article,
   .typeWord "type1", .lit " and ", .altLit ["uses", "can use"], .lit " ", .article,
   .wordsUpTo 3, .optLit "."]
def tplAttacksWithNamed : List TItem :=
  [.mname, .lit " attacks", .optLit " ", .optCapLit "num1" "twice", .lit " with ", .article,
   .typeWord "type1", .lit "."]
def tplNumAAndNumBOrC : List TItem :=
  [.mname, .lit " makes ", .num "total", .lit " ", .optLit "melee ", .lit "attacks: ",
   .num "num1", .lit " with ", .article, .typePhrase "type1", .lit " and ", .num "num2",
   .lit " with ", .optLit "either ", .article, .typePhrase "type2", .lit " or ", .article,
   .typePhrase "type3", .lit "."]
def tplNumArtAorArtBAndNumArtC : List TItem :=
  [.mname, .lit " makes ", .num "total", .lit " attacks: ", .num "num1", .lit " with ",
   .article, .typeWord "type1", .lit " or ", .article, .typeWord "type2", .lit " and ",
   .num "num3", .lit " with ", .article, .typeWord "type3", .lit "."]
def tplArtAAndArtB : List TItem :=
  [.mname, .lit " makes ", .num "total", .lit " ", .optLit "melee ", .lit "attacks",
   .charClass2 ':' ',', .lit " ", .num "num1", .lit " with ", .article, .typePhrase "type1",
   .lit " and ", .num "num2", .lit " with ", .article, .typePhrase "type2", .lit "."]
def tplTwiceArtAAndArtB : List TItem :=
  [.mname, .lit " attacks ", .capLit "total" "twice", .charClass2 ',' ':', .lit " ",
   .capLit "num1" "once", .lit " with ", .article, .typeWord "type1", .lit " and ",
   .capLit "num2" "once", .lit " with ", .article, .typeWord "type2", .optLit "."]
def tplMakesAAttackAndBAttack : List TItem :=
  [.mname, .lit " makes ", .num "num1", .lit " ", .typeWord "type1", .lit " attack",
   .optLit "s", .lit " and ", .num "num2", .lit " ", .typeWord "type2", .lit " attack",
   .optLit "s", .lit "."]
def tplMakesAAndBAttack : List TItem :=
  [.mname, .lit " makes ", .num "num1", .lit " ", .typeWord "type1", .lit " and ",
   .num "num2", .lit " ", .typeWord "type2", .lit " attack", .optLit "s", .lit "."]
def tplAOrB : List TItem :=
  [.mname, .lit " makes ", .num "num1", .lit " ", .typePhrase "type1", .lit " attacks or ",
   .num "num2", .lit " ", .typePhrase "type2", .lit " attacks", .optLit "."]
def tplByHalfSpellLevel : List TItem :=
  [.mname,
   .lit (" makes a number of attacks equal to half this spell" ++ String.singleton apos
     ++ "s level (rounded down).")]

/-- The closed set of attack forms, named as the source classes. -/
inductive Shape where
  | Centaur | Lamia | Manticore | Orc | Devil | Morkoth | Marut | Hunter | Sansuri
  | Generator | Stomper
  | Any | NumWithWeapon | AnyMelee | AnyRanged | MeleeOrRanged | Named | WithNamed
  | WithNamed2Options | NamedAndUses | AttacksWithNamed | NumAAndNumBOrC
  | NumArtAorArtBAndNumArtC | ArtAAndArtB | TwiceArtAAndArtB | MakesAAttackAndBAttack
  | MakesAAndBAttack | AOrB | NoMultiattack | ByHalfSpellLevel | Default
deriving DecidableEq, Repr

def tMatch (tpl : List TItem) (t : String) : Option Caps := mRun tpl t.toList

/-- The Default matcher: full match of the catch-all regex; it has no groups. -/
def defaultMatcher (t : String) : Option Caps :=
  if Rx.fmatch defaultRx t.toList then some [] else none

/-- The cascade in declaration order, without the final Default entry. -/
def mainForms : List (Shape × (String → Option Caps)) :=
  [(.Centaur, tMatch tplCentaur), (.Lamia, tMatch tplLamia), (.Manticore, tMatch tplManticore),
   (.Orc, tMatch tplOrc), (.Devil, tMatch tplDevil), (.Morkoth, tMatch tplMorkoth),
   (.Marut, tMatch tplMarut), (.Hunter, tMatch tplHunter), (.Sansuri, tMatch tplSansuri),
   (.Generator, tMatch tplGenerator), (.Stomper, tMatch tplStomper),
   (.Any, tMatch tplAny), (.NumWithWeapon, tMatch tplNumWithWeapon),
   (.AnyMelee, tMatch tplAnyMelee), (.AnyRanged, tMatch tplAnyRanged),
   (.MeleeOrRanged, tMatch tplMeleeOrRanged), (.Named, tMatch tplNamed),
   (.WithNamed, tMatch tplWithNamed), (.WithNamed2Options, tMatch tplWithNamed2Options),
   (.NamedAndUses, tMatch tplNamedAndUses), (.AttacksWithNamed, tMatch tplAttacksWithNamed),
   (.NumAAndNumBOrC, tMatch tplNumAAndNumBOrC),
   (.NumArtAorArtBAndNumArtC, tMatch tplNumArtAorArtBAndNumArtC),
   (.ArtAAndArtB, tMatch tplArtAAndArtB), (.TwiceArtAAndArtB, tMatch tplTwiceArtAAndArtB),
   (.MakesAAttackAndBAttack, tMatch tplMakesAAttackAndBAttack),
   (.MakesAAndBAttack, tMatch tplMakesAAndBAttack), (.AOrB, tMatch tplAOrB),
   (.ByHalfSpellLevel, tMatch tplByHalfSpellLevel)]

/-- The full ordered cascade; Default is declared last. -/
def attackFormsList : List (Shape × (String → Option Caps)) :=
  mainForms ++ [(.Default, defaultMatcher)]

/-- Run-time failures of the Python code, surfaced as values. -/
inductive Err where
  | noPattern
  | keyErr
  | typeErr
  | attrErr
  | valueErr
  | badDamage
deriving DecidableEq, Repr

/-- First pattern of the cascade to full-match the text; the error value is the
exception raised by AttackForm.init when no pattern matches. -/
def classifyText (t : String) : Except Err (Shape × Caps) :=
  match attackFormsList.findSome? (fun p => (p.2 t).map (fun c => (p.1, c))) with
  | some r => .ok r
  | none => .error .noPattern

/-- AttackForm.init: absent Multiattack text selects NoMultiattack immediately. -/
def classifyActions (a : Actions) : Except Err (Shape × Caps) :=
  match multiattackText a with
  | none => .ok (.NoMultiattack, [])
  | some t => classifyText t

/-! ### Validation (AttackForm._validate) -/

/-- The numberwords table of the source. -/
def numberwords (w : String) : Option ℕ :=
  if w == "one" then some 1
  else if w == "once" then some 1
  else if w == "two" then some 2
  else if w == "twice" then some 2
  else if w == "three" then some 3
  else if w == "four" then some 4
  else if w == "five" then some 5
  else if w == "six" then some 6
  else none

/-- The Validated record: aNcount, total, aNname, aNattack and mname fields. -/
structure VData where
  counts : List (ℕ × ℕ)
  total : Option ℕ
  names : List (ℕ × String)
  resolved : List (ℕ × Attack)
  mnameVal : Option String
deriving DecidableEq, Repr

def emptyV : VData := ⟨[], none, [], [], none⟩

/-- Outcome of _validate: a Validated record, the None return after a failed
attack resolution, or a raised exception. -/
inductive VResult where
  | ok (v : VData)
  | vfail
  | verr (e : Err)
deriving DecidableEq, Repr

/-- Keys fully matching the pattern num followed by digits. -/
def keyNumIdx (k : String) : Option ℕ :=
  if takeStr k 3 == "num" && isDigitsL (k.toList.drop 3) then some (digitsVal (k.toList.drop 3))
  else none

/-- Keys fully matching the pattern type followed by digits. -/
def keyTypeIdx (k : String) : Option ℕ :=
  if takeStr k 4 == "type" && isDigitsL (k.toList.drop 4) then some (digitsVal (k.toList.drop 4))
  else none

/-- The loop of AttackForm._validate over the groupdict, then the total check.
The mismatch branch is a raised TypeError: the warning text joins a list of
integers with a string separator. -/
def genValidateGo (catalog : List (String × Attack)) :
    List (String × Option String) → VData → List ℕ → VResult
  | [], v, counts =>
    match v.total with
    | some t => if !counts.isEmpty && counts.sum != t then .verr .typeErr else .ok v
    | none => .ok v
  | (k, val) :: rest, v, counts =>
    match keyNumIdx k with
    | some anum =>
      match val with
      | some w =>
        match numberwords w with
        | some c => genValidateGo catalog rest { v with counts := v.counts ++ [(anum, c)] } (counts ++ [c])
        | none => .verr .keyErr
      | none => genValidateGo catalog rest { v with counts := v.counts ++ [(anum, 1)] } (counts ++ [1])
    | none =>
      if k == "total" then
        match val with
        | some w =>
          match numberwords w with
          | some t => genValidateGo catalog rest { v with total := some t } counts
          | none => .verr .keyErr
        | none => .verr .keyErr
      else
        match keyTypeIdx k with
        | some anum =>
          match val with
          | some nm =>
            match matchAttack catalog nm with
            | some atk =>
              genValidateGo catalog rest
                { v with names := v.names ++ [(anum, nm)], resolved := v.resolved ++ [(anum, atk)] }
                counts
            | none => .vfail
          | none => .verr .attrErr
        | none =>
          if k == "mname" then genValidateGo catalog rest { v with mnameVal := val } counts
          else genValidateGo catalog rest v counts

/-- AttackForm._validate on the captured groups against the catalog. -/
def genValidate (caps : Caps) (catalog : List (String × Attack)) : VResult :=
  genValidateGo catalog caps emptyV []

/-! ### Damage expressions and per-shape formulas -/

/-- A per-round damage formula: attack terms, constants, sums, count multiples
and maxima.  Built once per creature; evaluated at each target armor class. -/
inductive DExpr where
  | atk (a : Attack)
  | const (q : ℚ)
  | add (x y : DExpr)
  | nmul (n : ℕ) (x : DExpr)
  | max2 (x y : DExpr)

/-- Evaluation at a target armor class; an attack whose damage string falls
outside the grammar is an evaluation failure. -/
def DExpr.eval : DExpr → ℚ → Except Err ℚ
  | .atk a, ac =>
    match calcDpr ac a.attack_bonus a.damage with
    | some q => .ok q
    | none => .error .badDamage
  | .const q, _ => .ok q
  | .add x y, ac =>
    match x.eval ac with
    | .ok qx =>
      match y.eval ac with
      | .ok qy => .ok (qx + qy)
      | .error e => .error e
    | .error e => .error e
  | .nmul n x, ac =>
    match x.eval ac with
    | .ok q => .ok ((n : ℚ) * q)
    | .error e => .error e
  | .max2 x y, ac =>
    match x.eval ac with
    | .ok qx =>
      match y.eval ac with
      | .ok qy => .ok (max qx qy)
      | .error e => .error e
    | .error e => .error e

/-- Maximum over a list of attacks; the Python max raises ValueError on an
empty sequence. -/
def maxFoldAtks : List Attack → Except Err DExpr
  | [] => .error .valueErr
  | x :: xs => .ok (xs.foldl (fun e a => .max2 e (.atk a)) (.atk x))

/-- Maximum over a list of attacks with the constant zero prepended. -/
def maxFold0 (l : List Attack) : DExpr :=
  l.foldl (fun e a => .max2 e (.atk a)) (.const 0)

/-- A _match_attack lookup whose None result is a raised AttributeError. -/
def mAtk (a : Actions) (nm : String) : Except Err Attack :=
  match matchAttack a.attacks nm with
  | some atk => .ok atk
  | none => .error .attrErr

/-- The melee and ranged list comprehensions: keep attacks whose text starts
with the given prefix; a missing text field is a raised KeyError. -/
def textFiltered (pre : String) (n : ℕ) : List Attack → Except Err (List Attack)
  | [] => .ok []
  | a :: rest =>
    match a.text with
    | none => .error .keyErr
    | some t =>
      match textFiltered pre n rest with
      | .ok l => .ok (if pyLower (takeStr t n) == pre then a :: l else l)
      | .error e => .error e

/-- Field access aNcount; a missing field is a raised AttributeError. -/
def getC (v : VData) (n : ℕ) : Except Err ℕ :=
  match v.counts.find? (fun p => p.1 == n) with
  | some p => .ok p.2
  | none => .error .attrErr

/-- Field access aNattack. -/
def getA (v : VData) (n : ℕ) : Except Err Attack :=
  match v.resolved.find? (fun p => p.1 == n) with
  | some p => .ok p.2
  | none => .error .attrErr

/-- Field access total. -/
def getT (v : VData) : Except Err ℕ :=
  match v.total with
  | some t => .ok t
  | none => .error .attrErr

/-- The _calc_dpr formula of each generic handler, as a damage expression. -/
def buildGeneric (a : Actions) (s : Shape) (v : VData) : Except Err (Option DExpr) :=
  match s with
  | .Any | .NumWithWeapon => do
    let t ← getT v
    let m ← maxFoldAtks (a.attacks.map Prod.snd)
    pure (some (.nmul t m))
  | .AnyMelee => do
    let l ← textFiltered "melee" 5 (a.attacks.map Prod.snd)
    let c ← getC v 1
    let m ← maxFoldAtks l
    pure (some (.nmul c m))
  | .AnyRanged => do
    let l ← textFiltered "ranged" 6 (a.attacks.map Prod.snd)
    let c ← getC v 1
    let m ← maxFoldAtks l
    pure (some (.nmul c m))
  | .MeleeOrRanged => do
    let lm ← textFiltered "melee" 5 (a.attacks.map Prod.snd)
    let lr ← textFiltered "ranged" 6 (a.attacks.map Prod.snd)
    let c1 ← getC v 1
    let c2 ← getC v 2
    pure (some (.max2 (.nmul c1 (maxFold0 lm)) (.nmul c2 (maxFold0 lr))))
  | .Named | .WithNamed | .NamedAndUses => do
    let c ← getC v 1
    let at1 ← getA v 1
    pure (some (.nmul c (.atk at1)))
  | .WithNamed2Options => do
    let t ← getT v
    let a1 ← getA v 1
    let a2 ← getA v 2
    pure (some (.nmul t (.max2 (.atk a1) (.atk a2))))
  | .AttacksWithNamed => do
    let c ← getC v 1
    let a1 ← getA v 1
    pure (some (.nmul c (.atk a1)))
  | .NumAAndNumBOrC => do
    let c1 ← getC v 1
    let a1 ← getA v 1
    let c2 ← getC v 2
    let a2 ← getA v 2
    let a3 ← getA v 3
    pure (some (.add (.nmul c1 (.atk a1)) (.nmul c2 (.max2 (.atk a2) (.atk a3)))))
  | .NumArtAorArtBAndNumArtC => do
    let c1 ← getC v 1
    let a1 ← getA v 1
    let a2 ← getA v 2
    let c3 ← getC v 3
    let a3 ← getA v 3
    pure (some (.add (.nmul c1 (.max2 (.atk a1) (.atk a2))) (.nmul c3 (.atk a3))))
  | .ArtAAndArtB | .TwiceArtAAndArtB | .MakesAAttackAndBAttack | .MakesAAndBAttack => do
    let c1 ← getC v 1
    let a1 ← getA v 1
    let c2 ← getC v 2
    let a2 ← getA v 2
    pure (some (.add (.nmul c1 (.atk a1)) (.nmul c2 (.atk a2))))
  | .AOrB => do
    let c1 ← getC v 1
    let a1 ← getA v 1
    let c2 ← getC v 2
    let a2 ← getA v 2
    pure (some (.max2 (.nmul c1 (.atk a1)) (.nmul c2 (.atk a2))))
  | _ => .error .attrErr

/-- Shapes whose dpr goes through the generic _validate. -/
def usesGenValidate : Shape → Bool
  | .Any | .NumWithWeapon | .AnyMelee | .AnyRanged | .MeleeOrRanged | .Named | .WithNamed
  | .WithNamed2Options | .NamedAndUses | .AttacksWithNamed | .NumAAndNumBOrC
  | .NumArtAorArtBAndNumArtC | .ArtAAndArtB | .TwiceArtAAndArtB | .MakesAAttackAndBAttack
  | .MakesAAndBAttack | .AOrB => true
  | _ => false

/-- The damage formula of the handlers that override dpr directly (the custom
literal handlers) and of the three shapes sharing the NoMultiattack validate,
which checks the catalog is nonempty and takes the best single attack.  The
generic shapes never reach this function. -/
def buildCustom (a : Actions) (s : Shape) : Except Err (Option DExpr) :=
  match s with
  | .Centaur => do
    let p ← mAtk a "Pike"
    let h ← mAtk a "Hooves"
    let l ← mAtk a "Longbow"
    pure (some (.max2 (.add (.atk p) (.atk h)) (.nmul 2 (.atk l))))
  | .Lamia => do
    let c ← mAtk a "Claws"
    let d ← mAtk a "Dagger"
    pure (some (.add (.atk c) (.atk d)))
  | .Manticore => do
    let b ← mAtk a "Bite"
    let c ← mAtk a "Claws"
    let t ← mAtk a "Tail Spikes"
    pure (some (.max2 (.add (.atk b) (.nmul 2 (.atk c))) (.atk t)))
  | .Orc => do
    let sp ← mAtk a "Spear"
    pure (some (.nmul 2 (.max2 (.atk sp) (.atk ⟨6, "1d12+4+1d8", none⟩))))
  | .Devil => do
    let b ← mAtk a "Bite"
    let f ← mAtk a "Fork"
    let t ← mAtk a "Tail Spine"
    pure (some (.max2 (.add (.atk b) (.atk f)) (.nmul 2 (.atk t))))
  | .Morkoth => do
    let b ← mAtk a "Bite"
    let t ← mAtk a "Tentacles"
    pure (some (.max2 (.add (.nmul 2 (.atk b)) (.atk t)) (.nmul 3 (.atk b))))
  | .Marut => pure (some (.const 120))
  | .Hunter => do
    let g ← mAtk a "Greatsword"
    let c ← mAtk a "Heavy Crossbow"
    pure (some (.nmul 2 (.max2 (.atk g) (.atk c))))
  | .Sansuri => do
    let m ← maxFoldAtks (a.attacks.map Prod.snd)
    pure (some m)
  | .Generator => do
    let f ← mAtk a "Fist"
    let d ← (match avg "2d4" with
             | some q => Except.ok q
             | none => Except.error Err.badDamage)
    pure (some (.max2 (.nmul 2 (.atk f)) (.const (4 * d))))
  | .Stomper => .ok none
  | .NoMultiattack | .ByHalfSpellLevel | .Default =>
    match a.attacks with
    | [] => .ok none
    | l => (maxFoldAtks (l.map Prod.snd)).map some
  | _ => .error .attrErr

/-- The damage formula of a classified creature: generic shapes run the
generic validator on the captures, with a failed validation degrading to the
Python None; the other shapes use their overridden dpr.  -/
def buildExpr (a : Actions) (s : Shape) (caps : Caps) : Except Err (Option DExpr) :=
  if usesGenValidate s then
    match genValidate caps a.attacks with
    | .vfail => .ok none
    | .verr e => .error e
    | .ok v => buildGeneric a s v
  else buildCustom a s

/-- Evaluate a built damage formula at a target armor class. -/
def runExpr (r : Except Err (Option DExpr)) (ac : ℚ) : Except Err (Option ℚ) :=
  match r with
  | .error e => .error e
  | .ok none => .ok none
  | .ok (some ex) =>
    match ex.eval ac with
    | .ok q => .ok (some q)
    | .error e => .error e

/-- Actions.dpr for one creature at one target armor class. -/
def dprResult (a : Actions) (ac : ℚ) : Except Err (Option ℚ) :=
  match classifyActions a with
  | .error e => .error e
  | .ok (s, caps) => runExpr (buildExpr a s caps) ac

/-- The dpr_confidence marker of each shape class. -/
def dprConfidence : Shape → String
  | .NamedAndUses => ">"
  | .ByHalfSpellLevel => ">="
  | .Default => ">=~"
  | _ => "="

/-! ### Definitions used to state the claims -/

/-- The resolution condition for one catalog entry, read off the if chain of
AttackForm._match_attack: substring containment of the lowercased fragment
with all trailing s stripped, or one of the three literal special cases. -/
def codeResolveCond (frag nm : String) : Bool :=
  strIn (rstripS (pyLower frag)) (pyLower nm) ||
  (pyLower frag == "hooves" && pyLower nm == "hoof") ||
  (pyLower frag == "adamantine greatclub" && pyLower nm == "greatclub") ||
  (takeStr frag 3 == "+1 " && pyLower nm == pyLower (dropStr frag 3) ++ " +1")

/-- Strip a single trailing letter s. -/
def stripOneS (s : String) : String :=
  if s.toList.getLast? == some 's' then String.mk s.toList.dropLast else s

/-- Modelled from the spec: name resolution succeeds exactly on (a) a
case-insensitive exact match, (b) a case-insensitive match after stripping a
single trailing s (from either side, the generous reading), or (c) the small
fixed alias table.  Stated for comparison with matchAttack. -/
def specResolve (catalog : List (String × Attack)) (frag : String) : Bool :=
  catalog.any (fun p =>
    pyLower frag == pyLower p.1 ||
    pyLower (stripOneS frag) == pyLower p.1 ||
    pyLower frag == pyLower (stripOneS p.1) ||
    (pyLower frag == "hooves" && pyLower p.1 == "hoof") ||
    (pyLower frag == "adamantine greatclub" && pyLower p.1 == "greatclub") ||
    (takeStr frag 3 == "+1 " && pyLower p.1 == pyLower (dropStr frag 3) ++ " +1"))

/-- The dice part of the specified expected value: N times (M plus one) over two. -/
def diceAvgSpec (l : List DTerm) : ℚ :=
  (l.map (fun t =>
    match t with
    | .dice n m => (n : ℚ) * ((m : ℚ) + 1) / 2
    | .flat _ => 0)).sum

/-- The flat-modifier part of the specified expected value. -/
def flatSumSpec (l : List DTerm) : ℚ :=
  (l.map (fun t =>
    match t with
    | .dice _ _ => 0
    | .flat k => (k : ℚ))).sum

/-- Running maximum of per-attack expected damages; an attack whose damage
fails to evaluate is an error. -/
def foldMaxDpr (ac : ℚ) (q : ℚ) : List Attack → Except Err ℚ
  | [] => .ok q
  | a :: rest =>
    match calcDpr ac a.attack_bonus a.damage with
    | some qa => foldMaxDpr ac (max q qa) rest
    | none => .error .badDamage

/-- The highest single-attack expected damage in the catalog, no multiplier;
none for an empty catalog.  This is the specified NoMultiattack behaviour. -/
def bestSingleDpr (a : Actions) (ac : ℚ) : Except Err (Option ℚ) :=
  match a.attacks.map Prod.snd with
  | [] => .ok none
  | x :: xs =>
    match calcDpr ac x.attack_bonus x.damage with
    | some q0 =>
      match foldMaxDpr ac q0 xs with
      | .ok q => .ok (some q)
      | .error e => .error e
    | none => .error .badDamage

/-! ### Concrete creatures used in the claims -/

/-- A creature with one attack and no Multiattack action. -/
def wolfA : Actions :=
  ⟨[("Bite", ⟨some 4, some "2d4+2", some "Melee Weapon Attack: +4 to hit."⟩)]⟩

/-- The scenario creature of the spec: a single attack with hit bonus 4 and
damage 1d6+2, and no Multiattack action. -/
def birdy : Actions :=
  ⟨[("Bite", ⟨some 4, some "1d6+2", some "Melee Weapon Attack: +4 to hit."⟩)]⟩

/-- A creature whose Multiattack text matches the Named pattern while the
captured attack name does not resolve against its catalog. -/
def zombA : Actions :=
  ⟨[("Multiattack", ⟨none, none, some "The zombie makes two slam attacks."⟩),
    ("Bite", ⟨some 4, some "1d6+2", some "Melee Weapon Attack: +4 to hit."⟩)]⟩

/-- Another creature with an unresolvable captured name, used independently. -/
def ghoulA : Actions :=
  ⟨[("Multiattack", ⟨none, none, some "The ghoul makes two claw attacks."⟩),
    ("Bite", ⟨some 2, some "2d6+2", some "Melee Weapon Attack: +2 to hit."⟩)]⟩

/-- A creature whose counts sum to three while the stated total is two. -/
def bearMA : Actions :=
  ⟨[("Multiattack",
     ⟨none, none, some "The bear makes two attacks: one with its bite and two with its claws."⟩),
    ("Bite", ⟨some 5, some "1d8+4", some "Melee Weapon Attack: +5 to hit."⟩),
    ("Claws", ⟨some 5, some "2d6+4", some "Melee Weapon Attack: +5 to hit."⟩)]⟩

/-- A creature classified Any whose attack catalog is empty. -/
def anyEmpty : Actions :=
  ⟨[("Multiattack", ⟨none, none, some "The bear makes two attacks."⟩)]⟩

/-- Two creatures sharing the same Multiattack text with different catalogs. -/
def scoutX1 : Actions :=
  ⟨[("Multiattack", ⟨none, none, some "The scout makes two melee attacks or two ranged attacks."⟩),
    ("Shortsword", ⟨some 4, some "1d6+2", some "Melee Weapon Attack: +4 to hit."⟩)]⟩

def scoutX2 : Actions :=
  ⟨[("Multiattack", ⟨none, none, some "The scout makes two melee attacks or two ranged attacks."⟩),
    ("Longbow", ⟨some 4, some "1d8+2", some "Ranged Weapon Attack: +4 to hit."⟩)]⟩

/-- The catalog of the substring counterexample. -/
def clawCatalog : List (String × Attack) := [("Claws", ⟨4, "1d6+2", none⟩)]

/-! ### Helper lemmas -/

theorem attackodds_antitone {t1 t2 : ℚ} (h : t1 ≤ t2) : attackodds t2 ≤ attackodds t1 := by
  unfold attackodds
  apply max_le_max _ le_rfl
  apply min_le_min _ le_rfl
  linarith

theorem avgTerm_nonneg (t : DTerm) : 0 ≤ avgTerm t := by
  cases t with
  | dice n m => unfold avgTerm; positivity
  | flat k => unfold avgTerm; positivity

theorem avgTerms_nonneg (l : List DTerm) : 0 ≤ avgTerms l := by
  unfold avgTerms
  apply List.sum_nonneg
  intro x hx
  simp only [List.mem_map] at hx
  obtain ⟨t, _, rfl⟩ := hx
  exact avgTerm_nonneg t

theorem avg_nonneg {s : String} {d : ℚ} (h : avg s = some d) : 0 ≤ d := by
  unfold avg at h
  cases hp : parseDmg s with
  | none => rw [hp] at h; simp at h
  | some l =>
    rw [hp] at h
    simp only [Option.map_some'] at h
    injection h with h
    subst h
    exact avgTerms_nonneg l

theorem eval_antitone (e : DExpr) :
    ∀ {ac1 ac2 q1 q2 : ℚ}, ac1 ≤ ac2 →
      e.eval ac1 = .ok q1 → e.eval ac2 = .ok q2 → q2 ≤ q1 := by
  induction e with
  | atk a =>
    intro ac1 ac2 q1 q2 h h1 h2
    unfold DExpr.eval calcDpr at h1 h2
    cases hv : avg a.damage with
    | none => rw [hv] at h1; simp at h1
    | some d =>
      simp only [hv, Option.map_some'] at h1 h2
      simp only [Except.ok.injEq] at h1 h2
      subst h1
      subst h2
      exact mul_le_mul_of_nonneg_right (attackodds_antitone (by linarith)) (avg_nonneg hv)
  | const q =>
    intro ac1 ac2 q1 q2 _ h1 h2
    unfold DExpr.eval at h1 h2
    simp only [Except.ok.injEq] at h1 h2
    subst h1
    subst h2
    exact le_refl q
  | add x y ihx ihy =>
    intro ac1 ac2 q1 q2 h h1 h2
    unfold DExpr.eval at h1 h2
    cases hx1 : x.eval ac1 with
    | error e => simp [hx1] at h1
    | ok qx1 =>
      simp only [hx1] at h1
      cases hy1 : y.eval ac1 with
      | error e => simp [hy1] at h1
      | ok qy1 =>
        simp only [hy1, Except.ok.injEq] at h1
        cases hx2 : x.eval ac2 with
        | error e => simp [hx2] at h2
        | ok qx2 =>
          simp only [hx2] at h2
          cases hy2 : y.eval ac2 with
          | error e => simp [hy2] at h2
          | ok qy2 =>
            simp only [hy2, Except.ok.injEq] at h2
            subst h1
            subst h2
            exact add_le_add (ihx h hx1 hx2) (ihy h hy1 hy2)
  | nmul n x ihx =>
    intro ac1 ac2 q1 q2 h h1 h2
    unfold DExpr.eval at h1 h2
    cases hx1 : x.eval ac1 with
    | error e => simp [hx1] at h1
    | ok qx1 =>
      simp only [hx1, Except.ok.injEq] at h1
      cases hx2 : x.eval ac2 with
      | error e => simp [hx2] at h2
      | ok qx2 =>
        simp only [hx2, Except.ok.injEq] at h2
        subst h1
        subst h2
        exact mul_le_mul_of_nonneg_left (ihx h hx1 hx2) (Nat.cast_nonneg n)
  | max2 x y ihx ihy =>
    intro ac1 ac2 q1 q2 h h1 h2
    unfold DExpr.eval at h1 h2
    cases hx1 : x.eval ac1 with
    | error e => simp [hx1] at h1
    | ok qx1 =>
      simp only [hx1] at h1
      cases hy1 : y.eval ac1 with
      | error e => simp [hy1] at h1
      | ok qy1 =>
        simp only [hy1, Except.ok.injEq] at h1
        cases hx2 : x.eval ac2 with
        | error e => simp [hx2] at h2
        | ok qx2 =>
          simp only [hx2] at h2
          cases hy2 : y.eval ac2 with
          | error e => simp [hy2] at h2
          | ok qy2 =>
            simp only [hy2, Except.ok.injEq] at h2
            subst h1
            subst h2
            exact max_le_max (ihx h hx1 hx2) (ihy h hy1 hy2)

theorem dprResult_eq (a : Actions) (ac : ℚ) (s : Shape) (caps : Caps)
    (hc : classifyActions a = .ok (s, caps)) :
    dprResult a ac = runExpr (buildExpr a s caps) ac := by
  unfold dprResult
  rw [hc]

theorem dpr_none_of_vfail (a : Actions) (ac : ℚ) (s : Shape) (caps : Caps)
    (hc : classifyActions a = .ok (s, caps)) (hg : usesGenValidate s = true)
    (hv : genValidate caps a.attacks = .vfail) : dprResult a ac = .ok none := by
  rw [dprResult_eq a ac s caps hc]
  simp [buildExpr, hg, hv, runExpr]

theorem deriv_defaultRx_eq (c : Char) : Rx.deriv defaultRx c = defaultRx := by
  cases hb : c == nlChar with
  | true =>
    have hc : c = nlChar := eq_of_beq hb
    subst hc
    rfl
  | false =>
    simp [defaultRx, rxLine, Rx.deriv, Rx.nullable, notNL, isNL, hb, catS, altS]

theorem fmatch_defaultRx (s : List Char) : Rx.fmatch defaultRx s = true := by
  induction s with
  | nil => rfl
  | cons c r ih => rw [Rx.fmatch, deriv_defaultRx_eq]; exact ih

theorem findSome?_append_isSome {α β : Type} (f : α → Option β) (l1 l2 : List α)
    (h : (l2.findSome? f).isSome = true) : ((l1 ++ l2).findSome? f).isSome = true := by
  induction l1 with
  | nil => simpa using h
  | cons a r ih =>
    rw [List.cons_append, List.findSome?_cons]
    cases hf : f a with
    | none => simpa using ih
    | some b => simp

theorem resolveStep_isSome (frag : String) (p : String × Attack) :
    (resolveStep frag p).isSome = codeResolveCond frag p.1 := by
  unfold resolveStep codeResolveCond
  cases h1 : strIn (rstripS (pyLower frag)) (pyLower p.1) <;>
    cases h2 : pyLower frag == "hooves" && pyLower p.1 == "hoof" <;>
      cases h3 : pyLower frag == "adamantine greatclub" && pyLower p.1 == "greatclub" <;>
        cases h4 : takeStr frag 3 == "+1 " && pyLower p.1 == pyLower (dropStr frag 3) ++ " +1" <;>
          simp [h1, h2, h3, h4]

theorem evalFoldErr (xs : List Attack) :
    ∀ (e : DExpr) (ac : ℚ) (er : Err), e.eval ac = .error er →
      ((xs.foldl (fun e a => DExpr.max2 e (.atk a)) e).eval ac) = .error er := by
  induction xs with
  | nil => intro e ac er h; simpa using h
  | cons a rest ih =>
    intro e ac er h
    rw [List.foldl_cons]
    apply ih
    simp [DExpr.eval, h]

theorem evalFoldMax (xs : List Attack) :
    ∀ (e : DExpr) (ac q : ℚ), e.eval ac = .ok q →
      ((xs.foldl (fun e a => DExpr.max2 e (.atk a)) e).eval ac) = foldMaxDpr ac q xs := by
  induction xs with
  | nil => intro e ac q h; simpa [foldMaxDpr] using h
  | cons a rest ih =>
    intro e ac q h
    rw [List.foldl_cons]
    cases hc : calcDpr ac a.attack_bonus a.damage with
    | some qa =>
      rw [show foldMaxDpr ac q (a :: rest) = foldMaxDpr ac (max q qa) rest by
        simp [foldMaxDpr, hc]]
      apply ih
      simp [DExpr.eval, h, hc]
    | none =>
      rw [show foldMaxDpr ac q (a :: rest) = .error .badDamage by simp [foldMaxDpr, hc]]
      apply evalFoldErr
      simp [DExpr.eval, h, hc]

theorem buildExpr_nm (a : Actions) (caps : Caps) :
    buildExpr a .NoMultiattack caps = buildCustom a .NoMultiattack := rfl

theorem buildCustom_nm (a : Actions) :
    buildCustom a .NoMultiattack =
      (match a.attacks with
       | [] => .ok none
       | l => (maxFoldAtks (l.map Prod.snd)).map some) := rfl

theorem runExpr_ok_some (ex : DExpr) (ac : ℚ) :
    runExpr (.ok (some ex)) ac =
      (match ex.eval ac with
       | .ok q => .ok (some q)
       | .error e => .error e) := rfl

/-! ### Claims -/

/-- C1: for every attack bonus and target defense, the hit probability used by
the DPR calculator equals clamp((21 - (ac - b))/20, 0.05, 0.95); it is exactly
0.95 when the needed roll is at most 1 and exactly 0.05 when the needed roll
is at least 20. -/
theorem attackodds_clamp_spec :
    (∀ ac b : ℚ, attackodds (ac - b) = min (max ((21 - (ac - b)) / 20) 0.05) 0.95) ∧
    (∀ ac b : ℚ, ac - b ≤ 1 → attackodds (ac - b) = 0.95) ∧
    (∀ ac b : ℚ, 20 ≤ ac - b → attackodds (ac - b) = 0.05) := by
  have h05 : (0.05 : ℚ) ≤ 0.95 := by norm_num
  refine ⟨?_, ?_, ?_⟩
  · intro ac b
    unfold attackodds
    have he : 1 - (ac - b - 1) / 20 = (21 - (ac - b)) / 20 := by ring
    rw [he]
    set x := (21 - (ac - b)) / 20 with hx
    rcases le_total x (0.05 : ℚ) with h1 | h1 <;> rcases le_total x (0.95 : ℚ) with h2 | h2
    · rw [min_eq_left h2, max_eq_right h1, min_eq_left h05]
    · linarith
    · rw [min_eq_left h2, max_eq_left h1, min_eq_left h2]
    · rw [min_eq_right h2, max_eq_left h05, max_eq_left h1, min_eq_right h2]
  · intro ac b h
    unfold attackodds
    rw [min_eq_right (by linarith), max_eq_left h05]
  · intro ac b h
    unfold attackodds
    rw [min_eq_left (by linarith), max_eq_right (by linarith)]

theorem c1aux1 : (5 : ℚ) - 4 ≤ 1 := by norm_num

theorem c1aux2 : (20 : ℚ) ≤ 25 - 5 := by norm_num

/-- Witness: the clamp boundaries at concrete inputs. -/
theorem attackodds_clamp_spec_witness :
    attackodds ((5 : ℚ) - 4) = 0.95 ∧ attackodds ((25 : ℚ) - 5) = 0.05 :=
  ⟨attackodds_clamp_spec.2.1 5 4 c1aux1, attackodds_clamp_spec.2.2 25 5 c1aux2⟩

/-- C2: the die-expression average equals the sum over dice terms of
N(M+1)/2 plus all flat modifiers, with no rounding, and the two documented
round-trip values hold. -/
theorem avg_dice_sum_spec :
    (∀ l : List DTerm, avgTerms l = diceAvgSpec l + flatSumSpec l) ∧
    avg "1d4" = some (5 / 2 : ℚ) ∧ avg "2d10+10 + 2d6" = some (28 : ℚ) := by
  refine ⟨?_, by with_unfolding_all rfl, by with_unfolding_all rfl⟩
  intro l
  induction l with
  | nil => simp [avgTerms, diceAvgSpec, flatSumSpec]
  | cons t rest ih =>
    simp only [avgTerms, diceAvgSpec, flatSumSpec, List.map_cons, List.sum_cons] at ih ⊢
    cases t with
    | dice n m =>
      simp only [avgTerm]
      rw [ih]
      ring
    | flat k =>
      simp only [avgTerm]
      rw [ih]
      ring

/-- C3: the catch-all Default pattern full-matches every text, so the cascade
always classifies and the no-match failure branch is unreachable. -/
theorem cascade_total_spec :
    (∀ t : String, Rx.fmatch defaultRx t.toList = true) ∧
    (∀ a : Actions, ∃ r, classifyActions a = .ok r) := by
  constructor
  · intro t
    exact fmatch_defaultRx t.toList
  · intro a
    cases hm : multiattackText a with
    | none => exact ⟨_, by unfold classifyActions; rw [hm]⟩
    | some t =>
      have hct : classifyActions a = classifyText t := by
        unfold classifyActions
        rw [hm]
      have hd : ((attackFormsList.findSome?
          (fun p => (p.2 t).map (fun c => (p.1, c))))).isSome = true := by
        unfold attackFormsList
        apply findSome?_append_isSome
        simp [defaultMatcher, fmatch_defaultRx]
      rw [hct]
      unfold classifyText
      cases ho : attackFormsList.findSome? (fun p => (p.2 t).map (fun c => (p.1, c))) with
      | none => rw [ho] at hd; simp at hd
      | some r => exact ⟨r, rfl⟩

/-- C4 counterexample: the fragment aw resolves against a catalog entry named
Claws by substring containment, while the specified two-step policy with the
alias table rejects it. -/
theorem match_attack_substring_cx :
    matchAttack clawCatalog "aw" = some ⟨4, "1d6+2", none⟩ ∧
    specResolve clawCatalog "aw" = false :=
  ⟨by with_unfolding_all rfl, by with_unfolding_all rfl⟩

/-- C4 amended: resolution succeeds exactly when some catalog entry satisfies
the code condition: the lowercased fragment with all trailing s stripped is a
substring of the lowercased entry name, or one of the three literal special
cases applies. -/
theorem match_attack_characterization (catalog : List (String × Attack)) (frag : String) :
    (matchAttack catalog frag).isSome = catalog.any (fun p => codeResolveCond frag p.1) := by
  induction catalog with
  | nil => rfl
  | cons p rest ih =>
    unfold matchAttack at ih ⊢
    rw [List.findSome?_cons, List.any_cons]
    cases hr : resolveStep frag p with
    | some atk =>
      have h := resolveStep_isSome frag p
      rw [hr] at h
      simp only [Option.isSome_some] at h
      simp [← h]
    | none =>
      have h := resolveStep_isSome frag p
      rw [hr] at h
      simp only [Option.isSome_none] at h
      simp [← h, ih]

/-- C5 counterexample: a text whose first syntactically matching pattern is
Named, with a captured attack name that does not resolve, is still classified
Named; the cascade does not proceed to a later pattern, and dpr is none. -/
theorem failed_resolution_keeps_shape_cx :
    classifyActions zombA =
      .ok (.Named, [("mname", some "The zombie"), ("num1", some "two"), ("type1", some "slam")]) ∧
    genValidate [("mname", some "The zombie"), ("num1", some "two"), ("type1", some "slam")]
      zombA.attacks = .vfail ∧
    dprResult zombA 10 = .ok none :=
  ⟨by with_unfolding_all rfl, by with_unfolding_all rfl, by with_unfolding_all rfl⟩

/-- C5 amended: a failed name resolution keeps the first syntactically
matching Shape as the classification and degrades dpr to none; the cascade is
not re-entered. -/
theorem failed_resolution_dpr_none (a : Actions) (ac : ℚ) (s : Shape) (caps : Caps)
    (hc : classifyActions a = .ok (s, caps)) (hg : usesGenValidate s = true)
    (hv : genValidate caps a.attacks = .vfail) :
    classifyActions a = .ok (s, caps) ∧ dprResult a ac = .ok none :=
  ⟨hc, dpr_none_of_vfail a ac s caps hc hg hv⟩

theorem c5aux1 :
    classifyActions zombA =
      .ok (.Named, [("mname", some "The zombie"), ("num1", some "two"), ("type1", some "slam")]) := by
  with_unfolding_all rfl

theorem c5aux2 :
    genValidate [("mname", some "The zombie"), ("num1", some "two"), ("type1", some "slam")]
      zombA.attacks = .vfail := by
  with_unfolding_all rfl

/-- Witness for the amended C5 at the zombie input. -/
theorem failed_resolution_dpr_none_witness :
    classifyActions zombA =
      .ok (.Named, [("mname", some "The zombie"), ("num1", some "two"), ("type1", some "slam")]) ∧
    dprResult zombA 10 = .ok none :=
  failed_resolution_dpr_none zombA 10 .Named
    [("mname", some "The zombie"), ("num1", some "two"), ("type1", some "slam")]
    c5aux1 rfl c5aux2

/-- C6: on a count-total mismatch the validator raises a TypeError while
building the warning text (it joins a list of integers with a string
separator), so at this input the mismatch is fatal rather than logged. -/
theorem total_mismatch_raises :
    classifyActions bearMA =
      .ok (.ArtAAndArtB,
        [("mname", some "The bear"), ("total", some "two"), ("num1", some "one"),
         ("type1", some "bite"), ("num2", some "two"), ("type2", some "claws")]) ∧
    genValidate
      [("mname", some "The bear"), ("total", some "two"), ("num1", some "one"),
       ("type1", some "bite"), ("num2", some "two"), ("type2", some "claws")]
      bearMA.attacks = .verr .typeErr ∧
    dprResult bearMA 10 = .error .typeErr :=
  ⟨by with_unfolding_all rfl, by with_unfolding_all rfl, by with_unfolding_all rfl⟩

/-- C7: a creature without Multiattack text is classified NoMultiattack
directly, its dpr is the best single attack with no multiplier, the scenario
creature has dpr 33/8 at defense 10, and the confidence marker is exact. -/
theorem no_multiattack_best_single :
    (∀ (a : Actions) (ac : ℚ), multiattackText a = none →
      classifyActions a = .ok (.NoMultiattack, []) ∧ dprResult a ac = bestSingleDpr a ac) ∧
    dprResult birdy 10 = .ok (some (33 / 8 : ℚ)) ∧ dprConfidence .NoMultiattack = "=" := by
  refine ⟨?_, by with_unfolding_all rfl, rfl⟩
  intro a ac hm
  have hcl : classifyActions a = .ok (.NoMultiattack, []) := by
    unfold classifyActions
    rw [hm]
  refine ⟨hcl, ?_⟩
  rw [dprResult_eq a ac .NoMultiattack [] hcl, buildExpr_nm a [], buildCustom_nm a]
  unfold bestSingleDpr
  cases ha : a.attacks with
  | nil => simp only [ha, List.map_nil]; rfl
  | cons x xs =>
    simp only [ha, List.map_cons]
    rw [show (maxFoldAtks (x.2 :: xs.map Prod.snd)).map some
        = Except.ok (some ((xs.map Prod.snd).foldl
            (fun e a => DExpr.max2 e (.atk a)) (.atk x.2))) from rfl]
    rw [runExpr_ok_some]
    cases hc : calcDpr ac x.2.attack_bonus x.2.damage with
    | some q0 =>
      have he : (DExpr.atk x.2).eval ac = .ok q0 := by simp [DExpr.eval, hc]
      rw [evalFoldMax (xs.map Prod.snd) (.atk x.2) ac q0 he]
    | none =>
      have he : (DExpr.atk x.2).eval ac = .error .badDamage := by simp [DExpr.eval, hc]
      rw [evalFoldErr (xs.map Prod.snd) (.atk x.2) ac .badDamage he]

/-- Witness for C7 at the scenario creature. -/
theorem no_multiattack_best_single_witness :
    classifyActions birdy = .ok (.NoMultiattack, []) ∧
    dprResult birdy 10 = bestSingleDpr birdy 10 :=
  no_multiattack_best_single.1 birdy 10 rfl

/-- C8 counterexample: a creature classified Any with an empty attack catalog
makes dpr raise the empty-maximum error instead of returning none. -/
theorem empty_catalog_any_raises_cx :
    classifyActions anyEmpty = .ok (.Any, [("mname", some "The bear"), ("total", some "two")]) ∧
    anyEmpty.attacks = [] ∧
    dprResult anyEmpty 10 = .error .valueErr :=
  ⟨by with_unfolding_all rfl, rfl, by with_unfolding_all rfl⟩

/-- C8 amended: validator failures degrade dpr to none for every generic
shape, and an absent Multiattack with an empty catalog yields none; an empty
catalog under a catalog-maximising shape raises instead (see the
counterexample). -/
theorem validator_fail_degrades :
    (∀ (a : Actions) (ac : ℚ) (s : Shape) (caps : Caps),
      classifyActions a = .ok (s, caps) → usesGenValidate s = true →
      genValidate caps a.attacks = .vfail → dprResult a ac = .ok none) ∧
    (∀ (a : Actions) (ac : ℚ), multiattackText a = none → a.attacks = [] →
      dprResult a ac = .ok none) := by
  constructor
  · intro a ac s caps hc hg hv
    exact dpr_none_of_vfail a ac s caps hc hg hv
  · intro a ac hm ha
    have hcl : classifyActions a = .ok (.NoMultiattack, []) := by
      unfold classifyActions
      rw [hm]
    rw [dprResult_eq a ac .NoMultiattack [] hcl, buildExpr_nm a [], buildCustom_nm a, ha]
    rfl

theorem c8aux1 :
    classifyActions ghoulA =
      .ok (.Named, [("mname", some "The ghoul"), ("num1", some "two"), ("type1", some "claw")]) := by
  with_unfolding_all rfl

theorem c8aux2 :
    genValidate [("mname", some "The ghoul"), ("num1", some "two"), ("type1", some "claw")]
      ghoulA.attacks = .vfail := by
  with_unfolding_all rfl

/-- Witness for the amended C8. -/
theorem validator_fail_degrades_witness :
    dprResult ghoulA 10 = .ok none ∧ dprResult (Actions.mk []) 10 = .ok none :=
  ⟨validator_fail_degrades.1 ghoulA 10 .Named
      [("mname", some "The ghoul"), ("num1", some "two"), ("type1", some "claw")]
      c8aux1 rfl c8aux2,
   validator_fail_degrades.2 (Actions.mk []) 10 rfl rfl⟩

/-- C9: for every creature, dpr is non-increasing as the target defense
increases, wherever both values are defined; plateaus (in particular at the
0.05 and 0.95 clamps) are permitted by the inequality. -/
theorem dpr_antitone_in_ac (a : Actions) (ac1 ac2 q1 q2 : ℚ) (h : ac1 ≤ ac2)
    (h1 : dprResult a ac1 = .ok (some q1)) (h2 : dprResult a ac2 = .ok (some q2)) :
    q2 ≤ q1 := by
  cases hc : classifyActions a with
  | error e =>
    unfold dprResult at h1
    rw [hc] at h1
    simp at h1
  | ok p =>
    obtain ⟨s, caps⟩ := p
    rw [dprResult_eq a ac1 s caps hc] at h1
    rw [dprResult_eq a ac2 s caps hc] at h2
    cases hb : buildExpr a s caps with
    | error e => rw [hb] at h1; simp [runExpr] at h1
    | ok o =>
      rw [hb] at h1 h2
      cases o with
      | none => simp [runExpr] at h1
      | some ex =>
        rw [runExpr_ok_some] at h1 h2
        cases he1 : ex.eval ac1 with
        | error e => simp [he1] at h1
        | ok v1 =>
          simp only [he1, Except.ok.injEq, Option.some.injEq] at h1
          cases he2 : ex.eval ac2 with
          | error e => simp [he2] at h2
          | ok v2 =>
            simp only [he2, Except.ok.injEq, Option.some.injEq] at h2
            subst h1
            subst h2
            exact eval_antitone ex h he1 he2

theorem c9aux1 : dprResult wolfA 10 = .ok (some (21 / 4 : ℚ)) := by with_unfolding_all rfl

theorem c9aux2 : dprResult wolfA 15 = .ok (some (7 / 2 : ℚ)) := by with_unfolding_all rfl

/-- Witness for C9 at a concrete creature and two defenses. -/
theorem dpr_antitone_in_ac_witness : (7 / 2 : ℚ) ≤ 21 / 4 :=
  dpr_antitone_in_ac wolfA 10 15 (21 / 4) (7 / 2) (by decide) c9aux1 c9aux2

/-- C10: classification is a function of the multiattack text alone; two
creatures with identical text receive identical classifications regardless of
their catalogs. -/
theorem classification_text_only (a1 a2 : Actions)
    (h : multiattackText a1 = multiattackText a2) :
    classifyActions a1 = classifyActions a2 := by
  unfold classifyActions
  rw [h]

/-- Witness for C10: same text, different catalogs. -/
theorem classification_text_only_witness :
    classifyActions scoutX1 = classifyActions scoutX2 :=
  classification_text_only scoutX1 scoutX2 rfl
